import Mathlib

set_option maxHeartbeats 1000000

noncomputable section

namespace Gungale

/-! Shallow embedding of the first-person movement and camera core of the
OpenGL demo (main.cpp).  Machine floats are modelled by the reals; glm vector
helpers are spelled out componentwise. -/

/-- glm::vec3 -/
@[ext]
structure Vec3 where
  x : ℝ
  y : ℝ
  z : ℝ

/-- glm::vec2 -/
@[ext]
structure Vec2 where
  x : ℝ
  y : ℝ

/-- glm::dot -/
def dot3 (a b : Vec3) : ℝ := a.x * b.x + a.y * b.y + a.z * b.z

/-- glm::length -/
def length3 (v : Vec3) : ℝ := Real.sqrt (v.x ^ 2 + v.y ^ 2 + v.z ^ 2)

/-- glm::clamp for scalars: clamp(x, lo, hi) = min(hi, max(lo, x)). -/
def clampR (x lo hi : ℝ) : ℝ := min hi (max lo x)

/-- glm::mix for scalars: a + t*(b-a). -/
def mixR (a b t : ℝ) : ℝ := a + t * (b - a)

/-- glm::mix on vec3, componentwise. -/
def mix3 (a b : Vec3) (t : ℝ) : Vec3 := ⟨mixR a.x b.x t, mixR a.y b.y t, mixR a.z b.z t⟩

/-- glm::cross -/
def cross3 (a b : Vec3) : Vec3 :=
  ⟨a.y * b.z - a.z * b.y, a.z * b.x - a.x * b.z, a.x * b.y - a.y * b.x⟩

/-- glm::normalize -/
def normalize3 (v : Vec3) : Vec3 := ⟨v.x / length3 v, v.y / length3 v, v.z / length3 v⟩

/-- VecNeg from main.cpp. -/
def neg3 (v : Vec3) : Vec3 := ⟨-v.x, -v.y, -v.z⟩

/-- Constant GRAVITY from main.cpp. -/
def GRAVITY : ℝ := 32.0

/-- Constant MAX_SPEED from main.cpp. -/
def MAX_SPEED : ℝ := 20.0

/-- Constant CROUCH_SPEED from main.cpp. -/
def CROUCH_SPEED : ℝ := 5.0

/-- Constant JUMP_FORCE from main.cpp. -/
def JUMP_FORCE : ℝ := 12.0

/-- Constant MAX_ACCEL from main.cpp. -/
def MAX_ACCEL : ℝ := 150.0

/-- Constant FRICTION from main.cpp. -/
def FRICTION : ℝ := 0.86

/-- Constant AIR_DRAG from main.cpp. -/
def AIR_DRAG : ℝ := 0.98

/-- Constant CONTROL from main.cpp. -/
def CONTROL : ℝ := 15.0

/-- The float constant PI_F from main.cpp. -/
def PI_F : ℝ := 3.14159265358979323846

/-- struct Body from main.cpp. -/
@[ext]
structure Body where
  position : Vec3
  velocity : Vec3
  dir : Vec3
  isGrounded : Bool

/-- RotateVecByAxisAngle from main.cpp: rotation of v about the normalized
axis by the given angle (the Rodrigues form of the glm::rotate matrix). -/
def RotateVecByAxisAngle (v axis : Vec3) (angle : ℝ) : Vec3 :=
  let n := normalize3 axis
  let c := Real.cos angle
  let s := Real.sin angle
  ⟨v.x * c + (cross3 n v).x * s + n.x * dot3 n v * (1 - c),
   v.y * c + (cross3 n v).y * s + n.y * dot3 n v * (1 - c),
   v.z * c + (cross3 n v).z * s + n.z * dot3 n v * (1 - c)⟩

/-- The acos argument of VecAngle after the clamp on line 85 of main.cpp. -/
def vecAngleArg (a b : Vec3) : ℝ :=
  clampR (dot3 a b / (length3 a * length3 b)) (-1) 1

/-- VecAngle from main.cpp (lines 81-87): 0 for a zero-length operand,
otherwise acos of the clamped normalized dot product. -/
def VecAngle (a b : Vec3) : ℝ :=
  if length3 a = 0 ∨ length3 b = 0 then 0 else Real.arccos (vecAngleArg a b)

/-- UpdateBody line 259: gravity applies only while airborne. -/
def velAfterGravity (b : Body) (delta : ℝ) : Vec3 :=
  if b.isGrounded = false then
    ⟨b.velocity.x, b.velocity.y - GRAVITY * delta, b.velocity.z⟩
  else b.velocity

/-- UpdateBody lines 262-266, velocity part: a grounded jump press sets
velocity.y to JUMP_FORCE. -/
def velAfterJump (b : Body) (jumpPressed : Bool) (delta : ℝ) : Vec3 :=
  if b.isGrounded && jumpPressed then
    ⟨(velAfterGravity b delta).x, JUMP_FORCE, (velAfterGravity b delta).z⟩
  else velAfterGravity b delta

/-- UpdateBody lines 262-266, grounded flag part: a grounded jump press
clears isGrounded. -/
def groundedAfterJump (b : Body) (jumpPressed : Bool) : Bool :=
  if b.isGrounded && jumpPressed then false else b.isGrounded

/-- UpdateBody line 268: front = (sin rot, 0, cos rot). -/
def frontVec (rot : ℝ) : Vec3 := ⟨Real.sin rot, 0, Real.cos rot⟩

/-- UpdateBody line 269: right = (cos(-rot), 0, sin(-rot)). -/
def rightVec (rot : ℝ) : Vec3 := ⟨Real.cos (-rot), 0, Real.sin (-rot)⟩

/-- UpdateBody lines 253 and 271: input = (side, -forward) and
desiredDir = (input.x*right.x + input.y*front.x, 0, input.x*right.z + input.y*front.z). -/
def desiredDir (rot : ℝ) (side forward : ℤ) : Vec3 :=
  ⟨(side : ℝ) * (rightVec rot).x + (-(forward : ℝ)) * (frontVec rot).x, 0,
   (side : ℝ) * (rightVec rot).z + (-(forward : ℝ)) * (frontVec rot).z⟩

/-- UpdateBody line 272: body.dir is mixed toward desiredDir with factor
clamp(CONTROL*delta, 0, 1). -/
def smoothedDir (b : Body) (rot : ℝ) (side forward : ℤ) (delta : ℝ) : Vec3 :=
  mix3 b.dir (desiredDir rot side forward) (clampR (CONTROL * delta) 0 1)

/-- UpdateBody lines 274-275: horizontal velocity scaled by FRICTION when
grounded (after the jump branch) and by AIR_DRAG otherwise. -/
def hvelFriction (b : Body) (jumpPressed : Bool) (delta : ℝ) : Vec3 :=
  let decel := if groundedAfterJump b jumpPressed then FRICTION else AIR_DRAG
  ⟨(velAfterJump b jumpPressed delta).x * decel, 0,
   (velAfterJump b jumpPressed delta).z * decel⟩

/-- UpdateBody lines 277-278: snap the horizontal velocity to zero when its
length falls below MAX_SPEED*0.01. -/
def hvelSnapped (b : Body) (jumpPressed : Bool) (delta : ℝ) : Vec3 :=
  if length3 (hvelFriction b jumpPressed delta) < MAX_SPEED * 0.01 then ⟨0, 0, 0⟩
  else hvelFriction b jumpPressed delta

/-- UpdateBody lines 280-283: accel = clamp(maxSpeed - dot(hvel, dir), 0, MAX_ACCEL*delta)
with maxSpeed = CROUCH_SPEED when crouching else MAX_SPEED. -/
def accelOf (b : Body) (rot : ℝ) (side forward : ℤ) (jumpPressed crouchHold : Bool)
    (delta : ℝ) : ℝ :=
  clampR ((if crouchHold then CROUCH_SPEED else MAX_SPEED)
            - dot3 (hvelSnapped b jumpPressed delta) (smoothedDir b rot side forward delta))
    0 (MAX_ACCEL * delta)

/-- UpdateBody from main.cpp (lines 251-300): gravity, jump, dir smoothing,
friction, snap, acceleration along dir, integration, and the ground clamp. -/
def UpdateBody (b : Body) (rot : ℝ) (side forward : ℤ) (jumpPressed crouchHold : Bool)
    (delta : ℝ) : Body :=
  let dir2 := smoothedDir b rot side forward delta
  let hvel := hvelSnapped b jumpPressed delta
  let accel := accelOf b rot side forward jumpPressed crouchHold delta
  let vel3 : Vec3 :=
    ⟨hvel.x + dir2.x * accel, (velAfterJump b jumpPressed delta).y, hvel.z + dir2.z * accel⟩
  let pos1 : Vec3 :=
    ⟨b.position.x + vel3.x * delta, b.position.y + vel3.y * delta,
     b.position.z + vel3.z * delta⟩
  if pos1.y ≤ 0 then
    { position := ⟨pos1.x, 0, pos1.z⟩, velocity := ⟨vel3.x, 0, vel3.z⟩,
      dir := dir2, isGrounded := true }
  else
    { position := pos1, velocity := vel3, dir := dir2,
      isGrounded := groundedAfterJump b jumpPressed }

/-- UpdateCameraFPS line 310: the yawed view vector, (0,0,-1) rotated about
world up by lookRotation.x. -/
def yawVector (lookRotationX : ℝ) : Vec3 :=
  RotateVecByAxisAngle ⟨0, 0, -1⟩ ⟨0, 1, 0⟩ lookRotationX

/-- UpdateCameraFPS lines 312-321: the two VecAngle-based clamps applied to
lookRotation.y (clamp view up, then clamp view down). -/
def clampedLookY (lookRotation : Vec2) : ℝ :=
  let up : Vec3 := ⟨0, 1, 0⟩
  let yaw := yawVector lookRotation.x
  let maxAngleUp := VecAngle up yaw - 0.001
  let y1 := if -lookRotation.y > maxAngleUp then -maxAngleUp else lookRotation.y
  let maxAngleDown := -(VecAngle (neg3 up) yaw) + 0.001
  if -y1 < maxAngleDown then -maxAngleDown else y1

/-- UpdateCameraFPS lines 327-328: the pitch angle actually used for the view
rotation, -lookRotation.y - lean.y clamped into
[-PI_F/2 + 0.0001, PI_F/2 - 0.0001]. -/
def cameraPitchAngle (lookRotation leanVec : Vec2) : ℝ :=
  clampR (-(clampedLookY lookRotation) - leanVec.y)
    (-PI_F / 2 + 0.0001) (PI_F / 2 - 0.0001)

/-- UpdateCameraFPS from main.cpp (lines 304-345).  Returns the new camera
position, target, up vector, and the clamped lookRotation.y. -/
def UpdateCameraFPS (camPosition : Vec3) (lookRotation leanVec : Vec2)
    (headTimer walkLerp : ℝ) : Vec3 × Vec3 × Vec3 × ℝ :=
  let up : Vec3 := ⟨0, 1, 0⟩
  let yaw := yawVector lookRotation.x
  let right := normalize3 (cross3 yaw up)
  let pitchAngle := cameraPitchAngle lookRotation leanVec
  let pitch := RotateVecByAxisAngle yaw right pitchAngle
  let headSin := Real.sin (headTimer * PI_F)
  let headCos := Real.cos (headTimer * PI_F)
  let stepRotation : ℝ := 0.01
  let camUp := RotateVecByAxisAngle up pitch (headSin * stepRotation + leanVec.x)
  let bobSide : ℝ := 0.1
  let bobUp : ℝ := 0.15
  let bobbing : Vec3 :=
    ⟨right.x * (headSin * bobSide), |headCos * bobUp|, right.z * (headSin * bobSide)⟩
  let camPosition2 : Vec3 :=
    ⟨camPosition.x + bobbing.x * walkLerp, camPosition.y + bobbing.y * walkLerp,
     camPosition.z + bobbing.z * walkLerp⟩
  let camTarget : Vec3 :=
    ⟨camPosition2.x + pitch.x, camPosition2.y + pitch.y, camPosition2.z + pitch.z⟩
  (camPosition2, camTarget, camUp, clampedLookY lookRotation)

/-- Main loop lines 398-399: pointer delta accumulation into lookRotation. -/
def accumulateLook (lookRotation : Vec2) (dx dy : ℝ) (sens : Vec2) : Vec2 :=
  ⟨lookRotation.x - dx * sens.x, lookRotation.y + dy * sens.y⟩

/-- Main loop line 406: IsKeyPressed behaviour for the space key,
jumpPressed = !prevSpace && spaceNow. -/
def jumpPressedOf (prevSpace spaceNow : Bool) : Bool := !prevSpace && spaceNow

/-- Main loop lines 416-423, headTimer part: headTimer advances by delta*3
when the player is grounded and a movement key is active. -/
def headTimerStep (headTimer : ℝ) (grounded : Bool) (forward sideway : ℤ)
    (delta : ℝ) : ℝ :=
  if grounded ∧ (forward ≠ 0 ∨ sideway ≠ 0) then headTimer + delta * 3.0 else headTimer

/-- One main-loop tick viewed through headTimer: UpdateBody runs first, then
headTimer is stepped using the updated grounded flag and the raw inputs. -/
def mainTickHeadTimer (b : Body) (rot : ℝ) (side forward : ℤ) (jumpPressed crouch : Bool)
    (delta headTimer : ℝ) : ℝ :=
  headTimerStep headTimer (UpdateBody b rot side forward jumpPressed crouch delta).isGrounded
    forward side delta

/-- The per-tick inputs of a body update other than the jump key. -/
structure TickIn where
  rot : ℝ
  side : ℤ
  forward : ℤ
  crouch : Bool
  delta : ℝ

/-- Run the main loop over a list of ticks with the space key held down on
every tick, starting from a given prevSpace state.  Returns how often the
grounded-jump branch of UpdateBody fired, and the final body. -/
def runHeld : List TickIn → Body → Bool → ℕ × Body
  | [], b, _ => (0, b)
  | t :: ts, b, prevSpace =>
    let jp := jumpPressedOf prevSpace true
    let fires := b.isGrounded && jp
    let rest := runHeld ts (UpdateBody b t.rot t.side t.forward jp t.crouch t.delta) true
    ((if fires then 1 else 0) + rest.1, rest.2)

/-- Horizontal speed of a body, length of (velocity.x, 0, velocity.z). -/
def horizSpeed (b : Body) : ℝ := length3 ⟨b.velocity.x, 0, b.velocity.z⟩

/-! Rational-valued model of the grounded forward-run scenario
(side = 0, forward = 1, no jump, no crouch, delta = 1/60): the body state
stays a scalar multiple of (sin rot, 0, cos rot), so the evolution is
captured by scalar sequences over the rationals. -/

/-- The snap-to-zero of lines 277-278 on the scalar speed. -/
def snapQ (w : ℚ) : ℚ := if w < 1 / 5 then 0 else w

/-- One scalar speed step of the grounded forward run at delta = 1/60:
friction 43/50, snap below 1/5, then acceleration
min(5/2, max(0, 20 - speed)) applied along the dir scalar. -/
def stepV (v d' : ℚ) : ℚ :=
  snapQ (43 / 50 * v) + d' * min (5 / 2) (max 0 (20 - snapQ (43 / 50 * v) * d'))

/-- One dir-smoothing step at delta = 1/60: d + (1/4)*(1 - d). -/
def mixD (d : ℚ) : ℚ := d + 1 / 4 * (1 - d)

/-- Dir scalar after k ticks of the forward run: 1 - (3/4)^k. -/
def scenarioD (k : ℕ) : ℚ := 1 - (3 / 4) ^ k

/-- Speed scalar after k ticks of the forward run. -/
def scenarioV : ℕ → ℚ
  | 0 => 0
  | k + 1 => stepV (scenarioV k) (scenarioD (k + 1))

/-- Position scalar after k ticks of the forward run. -/
def scenarioP : ℕ → ℚ
  | 0 => 0
  | k + 1 => scenarioP k + scenarioV (k + 1) * (1 / 60)

/-- The body whose position, velocity and dir are the scalars p, v, d times
-(sin rot, 0, cos rot), grounded. -/
def mkState (rot : ℝ) (p v d : ℚ) : Body :=
  ⟨⟨-(p : ℝ) * Real.sin rot, 0, -(p : ℝ) * Real.cos rot⟩,
   ⟨-(v : ℝ) * Real.sin rot, 0, -(v : ℝ) * Real.cos rot⟩,
   ⟨-(d : ℝ) * Real.sin rot, 0, -(d : ℝ) * Real.cos rot⟩,
   true⟩

/-- The forward-run scenario: from rest at the origin, grounded, dir zero,
repeatedly stepped with side = 0, forward = 1, no jump, no crouch,
delta = 1/60. -/
def scenarioBody (rot : ℝ) : ℕ → Body
  | 0 => ⟨⟨0, 0, 0⟩, ⟨0, 0, 0⟩, ⟨0, 0, 0⟩, true⟩
  | k + 1 => UpdateBody (scenarioBody rot k) rot 0 1 false false (1 / 60)

/-! Helper lemmas. -/

theorem length3_zero : length3 ⟨0, 0, 0⟩ = 0 := by
  simp [length3]

theorem length3_x (a : ℝ) : length3 ⟨a, 0, 0⟩ = |a| := by
  rw [length3, show a ^ 2 + (0 : ℝ) ^ 2 + (0 : ℝ) ^ 2 = a ^ 2 by ring, Real.sqrt_sq_eq_abs]

theorem length3_sincos (a rot : ℝ) :
    length3 ⟨a * Real.sin rot, 0, a * Real.cos rot⟩ = |a| := by
  rw [length3, show (a * Real.sin rot) ^ 2 + (0 : ℝ) ^ 2 + (a * Real.cos rot) ^ 2
        = a ^ 2 * (Real.sin rot ^ 2 + Real.cos rot ^ 2) by ring,
      Real.sin_sq_add_cos_sq, mul_one, Real.sqrt_sq_eq_abs]

theorem dot3_sincos (a b rot : ℝ) :
    dot3 ⟨a * Real.sin rot, 0, a * Real.cos rot⟩ ⟨b * Real.sin rot, 0, b * Real.cos rot⟩
      = a * b := by
  have h := Real.sin_sq_add_cos_sq rot
  simp only [dot3]
  linear_combination a * b * h

/-- Claim C8: one tick with pointer delta (1000, 0) and sensitivity
(0.001, 0.001) changes the yaw accumulator by exactly -1.0 radian and leaves
the pitch accumulator unchanged. -/
theorem C8_look_accumulation (lookRotation : Vec2) :
    (accumulateLook lookRotation 1000 0 ⟨0.001, 0.001⟩).x = lookRotation.x - 1 ∧
    (accumulateLook lookRotation 1000 0 ⟨0.001, 0.001⟩).y = lookRotation.y := by
  constructor <;> · simp only [accumulateLook]; norm_num

/-- Claim C9: VecAngle returns the fallback angle 0 when either vector has
zero length, and its acos argument is clamped into [-1, 1]. -/
theorem C9_vecangle_safe (a b : Vec3) :
    ((length3 a = 0 ∨ length3 b = 0) → VecAngle a b = 0) ∧
    (-1 ≤ vecAngleArg a b ∧ vecAngleArg a b ≤ 1) := by
  refine ⟨fun h => ?_, ?_, ?_⟩
  · rw [VecAngle, if_pos h]
  · exact le_min (by norm_num) (le_max_left _ _)
  · exact min_le_left _ _

/-- Witness for C9 at the concrete pair ((0,0,0), (1,2,2)). -/
theorem C9_witness :
    VecAngle ⟨0, 0, 0⟩ ⟨1, 2, 2⟩ = 0 ∧
    (-1 ≤ vecAngleArg ⟨0, 0, 0⟩ ⟨1, 2, 2⟩ ∧ vecAngleArg ⟨0, 0, 0⟩ ⟨1, 2, 2⟩ ≤ 1) :=
  ⟨(C9_vecangle_safe _ _).1 (Or.inl length3_zero), (C9_vecangle_safe _ _).2⟩

/-- Claim C3: for every camera state (hence after any sequence of pointer
deltas, however large), the effective pitch angle used by the camera update
lies strictly inside the open interval (-pi/2 + e, pi/2 - e) with
e = 1/20000. -/
theorem C3_pitch_interval (lookRotation leanVec : Vec2) :
    -(Real.pi / 2) + 1 / 20000 < cameraPitchAngle lookRotation leanVec ∧
    cameraPitchAngle lookRotation leanVec < Real.pi / 2 - 1 / 20000 := by
  have hpi := Real.pi_gt_d6
  have h1 : cameraPitchAngle lookRotation leanVec ≤ PI_F / 2 - 0.0001 :=
    min_le_left _ _
  have h2 : -PI_F / 2 + 0.0001 ≤ cameraPitchAngle lookRotation leanVec :=
    le_min (by rw [PI_F]; norm_num) (le_max_left _ _)
  rw [PI_F] at h1 h2
  norm_num at h1 h2
  constructor <;> linarith

/-- Claim C6: each step the acceleration added to the horizontal velocity is
clamp(targetMax - speed, 0, MAX_ACCEL*delta) times the smoothed facing
direction, where speed is the dot product of the (frictioned, snapped)
horizontal velocity with the smoothed facing direction and targetMax is
CROUCH_SPEED when crouching, else MAX_SPEED. -/
theorem C6_accel_model (b : Body) (rot : ℝ) (s f : ℤ) (jp cr : Bool) (δ : ℝ) :
    (UpdateBody b rot s f jp cr δ).velocity.x
        = (hvelSnapped b jp δ).x + (smoothedDir b rot s f δ).x * accelOf b rot s f jp cr δ
      ∧ (UpdateBody b rot s f jp cr δ).velocity.z
        = (hvelSnapped b jp δ).z + (smoothedDir b rot s f δ).z * accelOf b rot s f jp cr δ
      ∧ accelOf b rot s f jp cr δ
        = clampR ((if cr then CROUCH_SPEED else MAX_SPEED)
            - dot3 (hvelSnapped b jp δ) (smoothedDir b rot s f δ)) 0 (MAX_ACCEL * δ) := by
  refine ⟨?_, ?_, rfl⟩ <;> · simp only [UpdateBody]; split <;> rfl

/-- Amended claim C7: the headTimer accumulator advances by exactly delta*3
(a fixed rate, independent of movement speed) on ticks where the body is
grounded and a movement input is active, and does not advance otherwise. -/
theorem C7_headtimer_const_rate (ht : ℝ) (g : Bool) (f s : ℤ) (δ : ℝ) :
    (g = true → (f ≠ 0 ∨ s ≠ 0) → headTimerStep ht g f s δ = ht + δ * 3.0) ∧
    ((g = false ∨ (f = 0 ∧ s = 0)) → headTimerStep ht g f s δ = ht) := by
  constructor
  · intro hg hm
    rcases hm with hf | hs
    · simp [headTimerStep, hg, hf]
    · simp [headTimerStep, hg, hs]
  · intro h
    rcases h with hg | ⟨hf, hs⟩
    · simp [headTimerStep, hg]
    · simp [headTimerStep, hf, hs]

/-- Witness for C7 at concrete inputs: advancing grounded-moving tick and
idle non-advancing tick. -/
theorem C7_witness :
    headTimerStep 0 true 1 0 (1 / 60) = 0 + (1 / 60) * 3.0 ∧
    headTimerStep 0 false 1 0 (1 / 60) = 0 :=
  ⟨(C7_headtimer_const_rate 0 true 1 0 (1 / 60)).1 rfl (Or.inl (by norm_num)),
   (C7_headtimer_const_rate 0 false 1 0 (1 / 60)).2 (Or.inl rfl)⟩

/-! Step characterization of UpdateBody on the forward-run scenario states. -/

theorem length3_neg_sincos (a rot : ℝ) (ha : 0 ≤ a) :
    length3 ⟨-a * Real.sin rot, 0, -a * Real.cos rot⟩ = a := by
  rw [length3_sincos (-a) rot, abs_neg, abs_of_nonneg ha]

theorem velAfterJump_mkState (rot : ℝ) (p v d : ℚ) :
    velAfterJump (mkState rot p v d) false (1 / 60) = (mkState rot p v d).velocity := by
  simp [velAfterJump, velAfterGravity, mkState]

theorem groundedAfterJump_mkState (rot : ℝ) (p v d : ℚ) :
    groundedAfterJump (mkState rot p v d) false = true := by
  simp [groundedAfterJump, mkState]

theorem smoothedDir_mkState (rot : ℝ) (p v d : ℚ) :
    smoothedDir (mkState rot p v d) rot 0 1 (1 / 60)
      = ⟨-((mixD d : ℚ) : ℝ) * Real.sin rot, 0, -((mixD d : ℚ) : ℝ) * Real.cos rot⟩ := by
  have ht : clampR (CONTROL * (1 / 60)) 0 1 = 1 / 4 := by
    rw [clampR, CONTROL]; norm_num
  rw [smoothedDir, ht]
  simp only [mkState, desiredDir, frontVec, rightVec, mix3, mixR, mixD, Vec3.mk.injEq]
  refine ⟨?_, by norm_num, ?_⟩ <;> (push_cast; ring)

theorem hvelFriction_mkState (rot : ℝ) (p v d : ℚ) :
    hvelFriction (mkState rot p v d) false (1 / 60)
      = ⟨-((43 / 50 * v : ℚ) : ℝ) * Real.sin rot, 0,
         -((43 / 50 * v : ℚ) : ℝ) * Real.cos rot⟩ := by
  simp only [hvelFriction]
  rw [groundedAfterJump_mkState, velAfterJump_mkState, if_pos rfl]
  simp only [mkState, FRICTION]
  ext <;> (try rfl) <;> (push_cast; ring)

theorem hvelSnapped_mkState (rot : ℝ) (p v d : ℚ) (hv : 0 ≤ v) :
    hvelSnapped (mkState rot p v d) false (1 / 60)
      = ⟨-((snapQ (43 / 50 * v) : ℚ) : ℝ) * Real.sin rot, 0,
         -((snapQ (43 / 50 * v) : ℚ) : ℝ) * Real.cos rot⟩ := by
  have hw : (0 : ℝ) ≤ ((43 / 50 * v : ℚ) : ℝ) := by
    push_cast; positivity
  have hlen : length3 (hvelFriction (mkState rot p v d) false (1 / 60))
      = ((43 / 50 * v : ℚ) : ℝ) := by
    rw [hvelFriction_mkState, length3_neg_sincos _ _ hw]
  have hms : MAX_SPEED * (0.01 : ℝ) = ((1 / 5 : ℚ) : ℝ) := by
    rw [MAX_SPEED]; norm_num
  rw [hvelSnapped, hlen, hvelFriction_mkState, hms]
  by_cases hc : (43 / 50 * v : ℚ) < 1 / 5
  · rw [if_pos (by exact_mod_cast hc), snapQ, if_pos hc]
    norm_num
  · rw [if_neg (by exact_mod_cast hc), snapQ, if_neg hc]

theorem accelOf_mkState (rot : ℝ) (p v d : ℚ) (hv : 0 ≤ v) :
    accelOf (mkState rot p v d) rot 0 1 false false (1 / 60)
      = ((min (5 / 2) (max 0 (20 - snapQ (43 / 50 * v) * mixD d)) : ℚ) : ℝ) := by
  have hsp : dot3 (hvelSnapped (mkState rot p v d) false (1 / 60))
      (smoothedDir (mkState rot p v d) rot 0 1 (1 / 60))
      = ((snapQ (43 / 50 * v) * mixD d : ℚ) : ℝ) := by
    rw [hvelSnapped_mkState rot p v d hv, smoothedDir_mkState, dot3_sincos]
    push_cast; ring
  rw [accelOf, hsp, clampR, MAX_ACCEL, CROUCH_SPEED, MAX_SPEED]
  push_cast
  norm_num

theorem UpdateBody_mkState (rot : ℝ) (p v d : ℚ) (hv : 0 ≤ v) :
    UpdateBody (mkState rot p v d) rot 0 1 false false (1 / 60)
      = mkState rot (p + stepV v (mixD d) * (1 / 60)) (stepV v (mixD d)) (mixD d) := by
  have hdir := smoothedDir_mkState rot p v d
  have hsn := hvelSnapped_mkState rot p v d hv
  have hacc := accelOf_mkState rot p v d hv
  have hvj := velAfterJump_mkState rot p v d
  simp only [UpdateBody, hdir, hsn, hacc, hvj, groundedAfterJump_mkState]
  simp only [mkState]
  rw [if_pos (by norm_num)]
  ext <;> (try rfl) <;> (simp only [stepV]; push_cast; ring)

/-! Rational-sequence analysis of the forward-run scenario. -/

theorem scenarioD_nonneg (k : ℕ) : 0 ≤ scenarioD k := by
  rw [scenarioD]
  have h : (3 / 4 : ℚ) ^ k ≤ 1 := pow_le_one₀ (by norm_num) (by norm_num)
  linarith

theorem scenarioD_le_one (k : ℕ) : scenarioD k ≤ 1 := by
  rw [scenarioD]
  have h : (0 : ℚ) ≤ (3 / 4) ^ k := by positivity
  linarith

theorem scenarioD_mono (k : ℕ) : scenarioD k ≤ scenarioD (k + 1) := by
  rw [scenarioD, scenarioD, pow_succ]
  have h : (0 : ℚ) ≤ (3 / 4) ^ k := by positivity
  nlinarith

theorem scenarioD_succ_ge (k : ℕ) : 1 / 4 ≤ scenarioD (k + 1) := by
  rw [scenarioD, pow_succ]
  have h : (3 / 4 : ℚ) ^ k ≤ 1 := pow_le_one₀ (by norm_num) (by norm_num)
  have h0 : (0 : ℚ) ≤ (3 / 4) ^ k := by positivity
  nlinarith

theorem mixD_scenarioD (k : ℕ) : mixD (scenarioD k) = scenarioD (k + 1) := by
  rw [mixD, scenarioD, scenarioD, pow_succ]; ring

theorem snapQ_nonneg (w : ℚ) (hw : 0 ≤ w) : 0 ≤ snapQ w := by
  rw [snapQ]; split_ifs <;> simp [hw]

theorem snapQ_le (w : ℚ) (hw : 0 ≤ w) : snapQ w ≤ w := by
  rw [snapQ]; split_ifs <;> linarith

theorem scenarioV_bounds (k : ℕ) :
    0 ≤ scenarioV k ∧ scenarioV k ≤ 125 / 7 * scenarioD k := by
  induction k with
  | zero => norm_num [scenarioV, scenarioD]
  | succ k ih =>
    obtain ⟨h0, h1⟩ := ih
    have hd0 := scenarioD_nonneg k
    have hd1 := scenarioD_le_one k
    have hd0' := scenarioD_nonneg (k + 1)
    have hd1' := scenarioD_le_one (k + 1)
    have hdm := scenarioD_mono k
    rw [scenarioV, stepV]
    have hw : (0 : ℚ) ≤ 43 / 50 * scenarioV k := by positivity
    have hw2a := snapQ_nonneg _ hw
    have hw2b := snapQ_le _ hw
    have hac0 : (0 : ℚ)
        ≤ min (5 / 2) (max 0 (20 - snapQ (43 / 50 * scenarioV k) * scenarioD (k + 1))) :=
      le_min (by norm_num) (le_max_left _ _)
    have hac1 : min (5 / 2) (max 0 (20 - snapQ (43 / 50 * scenarioV k) * scenarioD (k + 1)))
        ≤ 5 / 2 := min_le_left _ _
    constructor
    · have := mul_nonneg hd0' hac0
      linarith
    · have h3 : scenarioD (k + 1)
          * min (5 / 2) (max 0 (20 - snapQ (43 / 50 * scenarioV k) * scenarioD (k + 1)))
          ≤ scenarioD (k + 1) * (5 / 2) := mul_le_mul_of_nonneg_left hac1 hd0'
      nlinarith

theorem scenarioV_mono (k : ℕ) : scenarioV k ≤ scenarioV (k + 1) := by
  obtain ⟨h0, h1⟩ := scenarioV_bounds k
  have hd0 := scenarioD_nonneg k
  have hd1 := scenarioD_le_one k
  have hd0' := scenarioD_nonneg (k + 1)
  have hd1' := scenarioD_le_one (k + 1)
  have hdq := scenarioD_succ_ge k
  have hdm := scenarioD_mono k
  rw [scenarioV, stepV]
  by_cases hc : (43 / 50 * scenarioV k : ℚ) < 1 / 5
  · rw [snapQ, if_pos hc]
    norm_num
    nlinarith
  · rw [snapQ, if_neg hc]
    have hvd : scenarioV k * scenarioD (k + 1)
        ≤ 125 / 7 * (scenarioD k * scenarioD (k + 1)) := by nlinarith
    have hdd : scenarioD k * scenarioD (k + 1) ≤ 1 := by nlinarith
    have hsp : 43 / 50 * scenarioV k * scenarioD (k + 1) ≤ 215 / 14 := by nlinarith
    rw [max_eq_right (by linarith), min_eq_left (by linarith)]
    nlinarith

theorem scenarioV_one : scenarioV 1 = 5 / 8 := by
  norm_num [scenarioV, stepV, snapQ, scenarioD]

theorem scenarioV_ge (k : ℕ) (hk : 1 ≤ k) : 5 / 8 ≤ scenarioV k := by
  induction k with
  | zero => exact absurd hk (by norm_num)
  | succ k ih =>
    rcases Nat.eq_zero_or_pos k with h0 | hpos
    · subst h0; rw [scenarioV_one]
    · exact le_trans (ih hpos) (scenarioV_mono k)

theorem scenarioV_rec (k : ℕ) (hk : 1 ≤ k) :
    scenarioV (k + 1) = 43 / 50 * scenarioV k + 5 / 2 * scenarioD (k + 1) := by
  obtain ⟨h0, h1⟩ := scenarioV_bounds k
  have hg := scenarioV_ge k hk
  have hd0 := scenarioD_nonneg k
  have hd1 := scenarioD_le_one k
  have hd0' := scenarioD_nonneg (k + 1)
  have hd1' := scenarioD_le_one (k + 1)
  rw [scenarioV, stepV, snapQ, if_neg (not_lt.mpr (by linarith))]
  have hvd : scenarioV k * scenarioD (k + 1)
      ≤ 125 / 7 * (scenarioD k * scenarioD (k + 1)) := by nlinarith
  have hdd : scenarioD k * scenarioD (k + 1) ≤ 1 := by nlinarith
  have hsp : 43 / 50 * scenarioV k * scenarioD (k + 1) ≤ 215 / 14 := by nlinarith
  rw [max_eq_right (by linarith), min_eq_left (by linarith)]
  ring

theorem scenarioV_err (k : ℕ) (hk : 1 ≤ k) :
    125 / 7 - scenarioV k ≤ 35 * (43 / 50 : ℚ) ^ k - 375 / 22 * (3 / 4 : ℚ) ^ k := by
  induction k with
  | zero => exact absurd hk (by norm_num)
  | succ k ih =>
    rcases Nat.eq_zero_or_pos k with h0 | hpos
    · subst h0; rw [scenarioV_one]; norm_num
    · have hrec := scenarioV_rec k hpos
      have ih' := ih hpos
      rw [hrec, scenarioD, pow_succ, pow_succ]
      linarith

theorem scenarioV_120 : 17 ≤ scenarioV 120 ∧ scenarioV 120 ≤ 125 / 7 := by
  have herr := scenarioV_err 120 (by norm_num)
  have hb := scenarioV_bounds 120
  have hd1 := scenarioD_le_one 120
  have hd0 := scenarioD_nonneg 120
  have hnum : 35 * (43 / 50 : ℚ) ^ 120 ≤ 6 / 7 := by norm_num
  have hB : (0 : ℚ) ≤ 375 / 22 * (3 / 4 : ℚ) ^ 120 := by positivity
  exact ⟨by linarith, by nlinarith [hb.1, hb.2]⟩

theorem scenarioBody_eq (rot : ℝ) (k : ℕ) :
    scenarioBody rot k = mkState rot (scenarioP k) (scenarioV k) (scenarioD k) := by
  induction k with
  | zero =>
    have h : scenarioD 0 = 0 := by norm_num [scenarioD]
    show (⟨⟨0, 0, 0⟩, ⟨0, 0, 0⟩, ⟨0, 0, 0⟩, true⟩ : Body) = _
    rw [h]
    show _ = mkState rot 0 0 0
    simp [mkState]
  | succ k ih =>
    have hstep : scenarioBody rot (k + 1)
        = UpdateBody (scenarioBody rot k) rot 0 1 false false (1 / 60) := rfl
    rw [hstep, ih, UpdateBody_mkState rot _ _ _ (scenarioV_bounds k).1, mixD_scenarioD]
    rfl

theorem horizSpeed_mkState (rot : ℝ) (p v d : ℚ) (hv : 0 ≤ v) :
    horizSpeed (mkState rot p v d) = (v : ℝ) := by
  simp only [horizSpeed, mkState]
  exact length3_neg_sincos _ _ (by exact_mod_cast hv)

theorem scenarioD_120_pos : (0 : ℚ) < scenarioD 120 := by
  rw [scenarioD]
  have h1 : (3 / 4 : ℚ) ^ 120 < 1 := pow_lt_one₀ (by norm_num) (by norm_num) (by norm_num)
  linarith

theorem scenario_dot_dir_front (rot : ℝ) :
    dot3 (scenarioBody rot 120).dir (frontVec rot) < 0 := by
  rw [scenarioBody_eq]
  have hs := Real.sin_sq_add_cos_sq rot
  have hd' : (0 : ℝ) < ((scenarioD 120 : ℚ) : ℝ) := by exact_mod_cast scenarioD_120_pos
  have key : dot3 (mkState rot (scenarioP 120) (scenarioV 120) (scenarioD 120)).dir
      (frontVec rot) = -((scenarioD 120 : ℚ) : ℝ) := by
    simp only [mkState, frontVec, dot3]
    linear_combination (-((scenarioD 120 : ℚ) : ℝ)) * hs
  rw [key]
  linarith

theorem scenario_speed_eq (rot : ℝ) :
    horizSpeed (scenarioBody rot 120) = ((scenarioV 120 : ℚ) : ℝ) := by
  rw [scenarioBody_eq, horizSpeed_mkState _ _ _ _ (scenarioV_bounds 120).1]

/-- Amended claim C4: in the forward-run scenario (grounded start at rest,
forwardInput = 1, strafeInput = 0, crouchHeld = false, dt = 1/60 repeated for
2 seconds = 120 ticks), the desired horizontal direction is the input-weighted
sum side*right + (-forward)*front, which for pure forward input is the
NEGATED world-forward vector; facingDir converges to -(1-(3/4)^120) times
(sin yaw, 0, cos yaw), anti-aligned with the forward vector; and the
horizontal speed approaches the friction/acceleration equilibrium
MAX_ACCEL*dt/(1-FRICTION) = 125/7 (about 17.86, strictly below MAX_SPEED):
after 2 seconds it lies in [17, 125/7]. -/
theorem C4_forward_scenario (rot : ℝ) :
    (17 ≤ horizSpeed (scenarioBody rot 120) ∧ horizSpeed (scenarioBody rot 120) ≤ 125 / 7) ∧
    (scenarioBody rot 120).dir
      = ⟨-((1 - (3 / 4) ^ 120 : ℚ) : ℝ) * Real.sin rot, 0,
         -((1 - (3 / 4) ^ 120 : ℚ) : ℝ) * Real.cos rot⟩ ∧
    dot3 (scenarioBody rot 120).dir (frontVec rot) < 0 ∧
    desiredDir rot 0 1 = neg3 (frontVec rot) := by
  refine ⟨⟨?_, ?_⟩, ?_, scenario_dot_dir_front rot, ?_⟩
  · rw [scenario_speed_eq]; exact_mod_cast scenarioV_120.1
  · rw [scenario_speed_eq, show (125 / 7 : ℝ) = ((125 / 7 : ℚ) : ℝ) by norm_num]
    exact Rat.cast_le.mpr scenarioV_120.2
  · rw [scenarioBody_eq]; rfl
  · ext <;> simp [desiredDir, frontVec, rightVec, neg3]

/-- Counterexample to claim C4 as stated: at yaw 0, after the full 2-second
forward run the facing direction has negative dot product with the claimed
world-forward vector (sin yaw, 0, cos yaw), i.e. it is anti-aligned with it
rather than aligned; and the horizontal speed is still at most 125/7, which
is more than 2 below MAX_SPEED, so the speed does not approach MAX_SPEED. -/
theorem C4_counterexample :
    dot3 (scenarioBody 0 120).dir (frontVec 0) < 0 ∧
    horizSpeed (scenarioBody 0 120) ≤ 125 / 7 ∧ (125 / 7 : ℝ) < MAX_SPEED - 2 := by
  refine ⟨scenario_dot_dir_front 0, ?_, by rw [MAX_SPEED]; norm_num⟩
  rw [scenario_speed_eq, show (125 / 7 : ℝ) = ((125 / 7 : ℚ) : ℝ) by norm_num]
  exact Rat.cast_le.mpr scenarioV_120.2

/-- Amended claim C1: for every body state satisfying the reachable-state
invariant (isGrounded implies velocity.y = 0) and every input, one UpdateBody
step leaves position.y nonnegative and preserves the invariant; in
particular a body at position.y = 0 with downward velocity can never be
driven below the ground plane. -/
theorem C1_ground_clamp (b : Body) (rot : ℝ) (s f : ℤ) (jp cr : Bool) (δ : ℝ)
    (hinv : b.isGrounded = true → b.velocity.y = 0) :
    0 ≤ (UpdateBody b rot s f jp cr δ).position.y ∧
    ((UpdateBody b rot s f jp cr δ).isGrounded = true →
      (UpdateBody b rot s f jp cr δ).velocity.y = 0) := by
  simp only [UpdateBody]
  split
  case isTrue h => exact ⟨le_refl 0, fun _ => rfl⟩
  case isFalse h =>
    refine ⟨le_of_lt (not_le.mp h), fun hg => ?_⟩
    have hbg : b.isGrounded = true := by
      revert hg
      rw [groundedAfterJump]
      cases hb : b.isGrounded <;> cases jp <;> simp
    have hjp : (b.isGrounded && jp) = false := by
      revert hg
      rw [groundedAfterJump, hbg]
      cases jp <;> simp
    rw [velAfterJump, if_neg (by simp [hjp]), velAfterGravity, if_neg (by simp [hbg])]
    exact hinv hbg

/-- Witness for C1 at the initial player body and concrete inputs. -/
theorem C1_witness :
    0 ≤ (UpdateBody ⟨⟨0, 0, 0⟩, ⟨0, 0, 0⟩, ⟨0, 0, 0⟩, true⟩ 0 0 0 false false
          (1 / 60)).position.y ∧
    ((UpdateBody ⟨⟨0, 0, 0⟩, ⟨0, 0, 0⟩, ⟨0, 0, 0⟩, true⟩ 0 0 0 false false
          (1 / 60)).isGrounded = true →
      (UpdateBody ⟨⟨0, 0, 0⟩, ⟨0, 0, 0⟩, ⟨0, 0, 0⟩, true⟩ 0 0 0 false false
          (1 / 60)).velocity.y = 0) :=
  C1_ground_clamp ⟨⟨0, 0, 0⟩, ⟨0, 0, 0⟩, ⟨0, 0, 0⟩, true⟩ 0 0 0 false false (1 / 60)
    (fun _ => rfl)

/-- Counterexample to claim C1 as stated over every body state: a grounded
body floating at height 5 with upward velocity 3 keeps isGrounded = true
after one step while its velocity.y stays 3, not 0. -/
theorem C1_counterexample :
    (UpdateBody ⟨⟨0, 5, 0⟩, ⟨0, 3, 0⟩, ⟨0, 0, 0⟩, true⟩ 0 0 0 false false
        (1 / 60)).isGrounded = true ∧
    (UpdateBody ⟨⟨0, 5, 0⟩, ⟨0, 3, 0⟩, ⟨0, 0, 0⟩, true⟩ 0 0 0 false false
        (1 / 60)).velocity.y = 3 ∧ (3 : ℝ) ≠ 0 := by
  have hvj : velAfterJump (⟨⟨0, 5, 0⟩, ⟨0, 3, 0⟩, ⟨0, 0, 0⟩, true⟩ : Body) false (1 / 60)
      = ⟨0, 3, 0⟩ := by
    simp [velAfterJump, velAfterGravity]
  have hga : groundedAfterJump (⟨⟨0, 5, 0⟩, ⟨0, 3, 0⟩, ⟨0, 0, 0⟩, true⟩ : Body) false
      = true := by
    simp [groundedAfterJump]
  refine ⟨?_, ?_, by norm_num⟩ <;>
  · simp only [UpdateBody, hvj, hga]
    rw [if_neg (by norm_num)]
    try norm_num

/-- Amended claim C10: a grounded body with velocity.y = 0 and position.y at
least 0, stepped with jumpRequested = false, keeps position.y, velocity.y and
isGrounded unchanged (gravity is skipped while grounded). -/
theorem C10_grounded_frame_effect (b : Body) (rot : ℝ) (s f : ℤ) (cr : Bool) (δ : ℝ)
    (hg : b.isGrounded = true) (hvy : b.velocity.y = 0) (hpy : 0 ≤ b.position.y) :
    (UpdateBody b rot s f false cr δ).position.y = b.position.y ∧
    (UpdateBody b rot s f false cr δ).velocity.y = b.velocity.y ∧
    (UpdateBody b rot s f false cr δ).isGrounded = true := by
  have hvj : velAfterJump b false δ = b.velocity := by
    rw [velAfterJump, if_neg (by simp), velAfterGravity, if_neg (by simp [hg])]
  have hga : groundedAfterJump b false = true := by
    rw [groundedAfterJump, if_neg (by simp)]; exact hg
  simp only [UpdateBody, hvj, hga, hvy]
  by_cases hc : b.position.y + 0 * δ ≤ 0
  · rw [if_pos hc]
    have h0 : b.position.y = 0 := le_antisymm (by linarith [hc]) hpy
    exact ⟨h0.symm, rfl, rfl⟩
  · rw [if_neg hc]
    exact ⟨by ring, rfl, rfl⟩

/-- Witness for C10 at a concrete resting grounded body. -/
theorem C10_witness :
    (UpdateBody ⟨⟨1, 2, 3⟩, ⟨4, 0, 5⟩, ⟨0, 0, 0⟩, true⟩ 0 0 0 false false
        (1 / 60)).position.y = (⟨⟨1, 2, 3⟩, ⟨4, 0, 5⟩, ⟨0, 0, 0⟩, true⟩ : Body).position.y ∧
    (UpdateBody ⟨⟨1, 2, 3⟩, ⟨4, 0, 5⟩, ⟨0, 0, 0⟩, true⟩ 0 0 0 false false
        (1 / 60)).velocity.y = (⟨⟨1, 2, 3⟩, ⟨4, 0, 5⟩, ⟨0, 0, 0⟩, true⟩ : Body).velocity.y ∧
    (UpdateBody ⟨⟨1, 2, 3⟩, ⟨4, 0, 5⟩, ⟨0, 0, 0⟩, true⟩ 0 0 0 false false
        (1 / 60)).isGrounded = true :=
  C10_grounded_frame_effect ⟨⟨1, 2, 3⟩, ⟨4, 0, 5⟩, ⟨0, 0, 0⟩, true⟩ 0 0 0 false (1 / 60)
    rfl rfl (by norm_num)

/-- Counterexample to claim C10 as stated over every grounded body: a
grounded body at the ground plane with downward velocity -3 has its
velocity.y changed to 0 by the step (the ground clamp fires), so velocity.y
is not left unchanged. -/
theorem C10_counterexample :
    (UpdateBody ⟨⟨0, 0, 0⟩, ⟨0, -3, 0⟩, ⟨0, 0, 0⟩, true⟩ 0 0 0 false false
        (1 / 60)).velocity.y = 0 ∧
    (⟨⟨0, 0, 0⟩, ⟨0, -3, 0⟩, ⟨0, 0, 0⟩, true⟩ : Body).velocity.y = -3 ∧
    (0 : ℝ) ≠ -3 := by
  have hvj : velAfterJump (⟨⟨0, 0, 0⟩, ⟨0, -3, 0⟩, ⟨0, 0, 0⟩, true⟩ : Body) false (1 / 60)
      = ⟨0, -3, 0⟩ := by
    simp [velAfterJump, velAfterGravity]
  refine ⟨?_, rfl, by norm_num⟩
  simp only [UpdateBody, hvj]
  rw [if_pos (by norm_num)]

/-- runHeld never fires the jump branch once prevSpace is true and the key
stays held: the edge detector is false on every later tick. -/
theorem runHeld_prev_true (ts : List TickIn) : ∀ b : Body, (runHeld ts b true).1 = 0 := by
  induction ts with
  | nil => intro b; rfl
  | cons t ts ih =>
    intro b
    simp [runHeld, jumpPressedOf, ih]

/-- Claim C2: with the space key held continuously from a released state
while the body starts grounded, the grounded-jump branch (velocity.y :=
JUMP_FORCE, isGrounded := false) fires exactly once, on the tick of the
released-to-pressed transition; and a jump request while airborne has no
effect at all on the step. -/
theorem C2_jump_edge_trigger :
    (∀ (b : Body) (t : TickIn) (ts : List TickIn), b.isGrounded = true →
        (runHeld (t :: ts) b false).1 = 1) ∧
    (∀ (b : Body) (rot : ℝ) (s f : ℤ) (cr : Bool) (δ : ℝ), b.isGrounded = false →
        UpdateBody b rot s f true cr δ = UpdateBody b rot s f false cr δ) := by
  constructor
  · intro b t ts hb
    simp [runHeld, jumpPressedOf, hb, runHeld_prev_true]
  · intro b rot s f cr δ hb
    have h1 : velAfterJump b true δ = velAfterJump b false δ := by
      rw [velAfterJump, velAfterJump, if_neg (by simp [hb]), if_neg (by simp [hb])]
    have h2 : groundedAfterJump b true = groundedAfterJump b false := by
      rw [groundedAfterJump, groundedAfterJump, if_neg (by simp [hb]), if_neg (by simp [hb])]
    simp only [UpdateBody, hvelSnapped, hvelFriction, accelOf, h1, h2]

/-- Witness for C2: one held tick from a grounded start fires exactly once,
and a concrete airborne body ignores the jump request. -/
theorem C2_witness :
    (runHeld [⟨0, 0, 0, false, 1 / 60⟩] ⟨⟨0, 0, 0⟩, ⟨0, 0, 0⟩, ⟨0, 0, 0⟩, true⟩ false).1
      = 1 ∧
    UpdateBody ⟨⟨0, 9, 0⟩, ⟨0, 0, 0⟩, ⟨0, 0, 0⟩, false⟩ 0 0 0 true false (1 / 60)
      = UpdateBody ⟨⟨0, 9, 0⟩, ⟨0, 0, 0⟩, ⟨0, 0, 0⟩, false⟩ 0 0 0 false false (1 / 60) :=
  ⟨C2_jump_edge_trigger.1 _ _ _ rfl, C2_jump_edge_trigger.2 _ 0 0 0 false (1 / 60) rfl⟩

theorem length3_nonneg (v : Vec3) : 0 ≤ length3 v := Real.sqrt_nonneg _

theorem length3_scale (x z c : ℝ) (hc : 0 ≤ c) :
    length3 ⟨x * c, 0, z * c⟩ = c * length3 ⟨x, 0, z⟩ := by
  rw [length3, length3,
    show (x * c) ^ 2 + (0 : ℝ) ^ 2 + (z * c) ^ 2 = c ^ 2 * (x ^ 2 + 0 ^ 2 + z ^ 2) by ring,
    Real.sqrt_mul (sq_nonneg c), Real.sqrt_sq hc]

/-- Amended claim C5: with zero directional input, no jump, a grounded body
and a zero facing direction (so that the acceleration term vanishes), one
tick multiplies the horizontal speed by FRICTION (strictly reducing it while
it is nonzero), snaps it to exactly zero when the frictioned speed is below
1 percent of MAX_SPEED, and preserves groundedness and the zero facing
direction, so repeated ticks reduce the horizontal speed to exactly zero. -/
theorem C5_friction_convergence (b : Body) (rot : ℝ) (cr : Bool) (δ : ℝ)
    (hg : b.isGrounded = true) (hd : b.dir = ⟨0, 0, 0⟩) :
    horizSpeed (UpdateBody b rot 0 0 false cr δ) ≤ FRICTION * horizSpeed b ∧
    (horizSpeed b ≠ 0 → horizSpeed (UpdateBody b rot 0 0 false cr δ) < horizSpeed b) ∧
    (length3 (hvelFriction b false δ) < MAX_SPEED * 0.01 →
      (UpdateBody b rot 0 0 false cr δ).velocity.x = 0 ∧
      (UpdateBody b rot 0 0 false cr δ).velocity.z = 0) ∧
    (UpdateBody b rot 0 0 false cr δ).dir = ⟨0, 0, 0⟩ ∧
    (UpdateBody b rot 0 0 false cr δ).isGrounded = true := by
  have hvj : velAfterJump b false δ = b.velocity := by
    rw [velAfterJump, if_neg (by simp), velAfterGravity, if_neg (by simp [hg])]
  have hga : groundedAfterJump b false = true := by
    rw [groundedAfterJump, if_neg (by simp)]; exact hg
  have hdir : smoothedDir b rot 0 0 δ = ⟨0, 0, 0⟩ := by
    ext <;> simp [smoothedDir, desiredDir, frontVec, rightVec, mix3, mixR, hd]
  have hfr : hvelFriction b false δ
      = ⟨b.velocity.x * FRICTION, 0, b.velocity.z * FRICTION⟩ := by
    simp [hvelFriction, hga, hvj]
  have hFnn : (0 : ℝ) ≤ FRICTION := by rw [FRICTION]; norm_num
  have hvx : (UpdateBody b rot 0 0 false cr δ).velocity.x = (hvelSnapped b false δ).x := by
    simp only [UpdateBody, hdir]
    split <;> simp
  have hvz : (UpdateBody b rot 0 0 false cr δ).velocity.z = (hvelSnapped b false δ).z := by
    simp only [UpdateBody, hdir]
    split <;> simp
  have hsp : horizSpeed (UpdateBody b rot 0 0 false cr δ)
      = length3 ⟨(hvelSnapped b false δ).x, 0, (hvelSnapped b false δ).z⟩ := by
    rw [horizSpeed, hvx, hvz]
  have hlf : length3 (hvelFriction b false δ) = FRICTION * horizSpeed b := by
    rw [hfr, horizSpeed]
    exact length3_scale _ _ _ hFnn
  have hhs0 : 0 ≤ horizSpeed b := length3_nonneg _
  have hdirres : (UpdateBody b rot 0 0 false cr δ).dir = ⟨0, 0, 0⟩ := by
    simp only [UpdateBody, hdir]
    split <;> rfl
  have hgres : (UpdateBody b rot 0 0 false cr δ).isGrounded = true := by
    simp only [UpdateBody, hga]
    split <;> rfl
  by_cases hc : length3 (hvelFriction b false δ) < MAX_SPEED * 0.01
  · have hsnap : hvelSnapped b false δ = ⟨0, 0, 0⟩ := by rw [hvelSnapped, if_pos hc]
    have hspeed0 : horizSpeed (UpdateBody b rot 0 0 false cr δ) = 0 := by
      rw [hsp, hsnap]
      simpa using length3_zero
    refine ⟨?_, fun hne => ?_, fun _ => ⟨by rw [hvx, hsnap], by rw [hvz, hsnap]⟩,
      hdirres, hgres⟩
    · rw [hspeed0]; exact mul_nonneg hFnn hhs0
    · rw [hspeed0]; exact lt_of_le_of_ne hhs0 (Ne.symm hne)
  · have hsnap : hvelSnapped b false δ = hvelFriction b false δ := by
      rw [hvelSnapped, if_neg hc]
    have hproj : length3 ⟨(hvelFriction b false δ).x, 0, (hvelFriction b false δ).z⟩
        = length3 (hvelFriction b false δ) := by rw [hfr]
    have hspeedF : horizSpeed (UpdateBody b rot 0 0 false cr δ)
        = FRICTION * horizSpeed b := by
      rw [hsp, hsnap, hproj, hlf]
    refine ⟨le_of_eq hspeedF, fun hne => ?_, fun hcc => absurd hcc hc, hdirres, hgres⟩
    rw [hspeedF]
    have hpos : 0 < horizSpeed b := lt_of_le_of_ne hhs0 (Ne.symm hne)
    rw [FRICTION]
    nlinarith

/-- Witness for C5 at a concrete slow grounded body whose frictioned speed
falls below the snap threshold. -/
theorem C5_witness :
    horizSpeed (UpdateBody ⟨⟨0, 0, 0⟩, ⟨1 / 10, 0, 0⟩, ⟨0, 0, 0⟩, true⟩ 0 0 0 false false
        (1 / 60))
      ≤ FRICTION * horizSpeed (⟨⟨0, 0, 0⟩, ⟨1 / 10, 0, 0⟩, ⟨0, 0, 0⟩, true⟩ : Body) ∧
    horizSpeed (UpdateBody ⟨⟨0, 0, 0⟩, ⟨1 / 10, 0, 0⟩, ⟨0, 0, 0⟩, true⟩ 0 0 0 false false
        (1 / 60))
      < horizSpeed (⟨⟨0, 0, 0⟩, ⟨1 / 10, 0, 0⟩, ⟨0, 0, 0⟩, true⟩ : Body) ∧
    (UpdateBody ⟨⟨0, 0, 0⟩, ⟨1 / 10, 0, 0⟩, ⟨0, 0, 0⟩, true⟩ 0 0 0 false false
        (1 / 60)).velocity.x = 0 ∧
    (UpdateBody ⟨⟨0, 0, 0⟩, ⟨1 / 10, 0, 0⟩, ⟨0, 0, 0⟩, true⟩ 0 0 0 false false
        (1 / 60)).velocity.z = 0 ∧
    (UpdateBody ⟨⟨0, 0, 0⟩, ⟨1 / 10, 0, 0⟩, ⟨0, 0, 0⟩, true⟩ 0 0 0 false false
        (1 / 60)).dir = ⟨0, 0, 0⟩ ∧
    (UpdateBody ⟨⟨0, 0, 0⟩, ⟨1 / 10, 0, 0⟩, ⟨0, 0, 0⟩, true⟩ 0 0 0 false false
        (1 / 60)).isGrounded = true := by
  have h := C5_friction_convergence ⟨⟨0, 0, 0⟩, ⟨1 / 10, 0, 0⟩, ⟨0, 0, 0⟩, true⟩ 0 false
    (1 / 60) rfl rfl
  have hbw : horizSpeed (⟨⟨0, 0, 0⟩, ⟨1 / 10, 0, 0⟩, ⟨0, 0, 0⟩, true⟩ : Body) = 1 / 10 := by
    show length3 ⟨1 / 10, 0, 0⟩ = 1 / 10
    rw [length3_x]; norm_num
  have hfrw : hvelFriction (⟨⟨0, 0, 0⟩, ⟨1 / 10, 0, 0⟩, ⟨0, 0, 0⟩, true⟩ : Body) false
      (1 / 60) = ⟨43 / 500, 0, 0⟩ := by
    have hga : groundedAfterJump (⟨⟨0, 0, 0⟩, ⟨1 / 10, 0, 0⟩, ⟨0, 0, 0⟩, true⟩ : Body) false
        = true := by simp [groundedAfterJump]
    have hvj : velAfterJump (⟨⟨0, 0, 0⟩, ⟨1 / 10, 0, 0⟩, ⟨0, 0, 0⟩, true⟩ : Body) false
        (1 / 60) = ⟨1 / 10, 0, 0⟩ := by simp [velAfterJump, velAfterGravity]
    rw [hvelFriction]
    rw [hga, hvj, if_pos rfl]
    ext <;> norm_num [FRICTION]
  have hcond : length3 (hvelFriction (⟨⟨0, 0, 0⟩, ⟨1 / 10, 0, 0⟩, ⟨0, 0, 0⟩, true⟩ : Body)
      false (1 / 60)) < MAX_SPEED * 0.01 := by
    rw [hfrw, length3_x, MAX_SPEED, abs_of_nonneg (by norm_num : (0 : ℝ) ≤ 43 / 500)]
    norm_num
  exact ⟨h.1, h.2.1 (by rw [hbw]; norm_num), (h.2.2.1 hcond).1, (h.2.2.1 hcond).2,
    h.2.2.2.1, h.2.2.2.2⟩

/-- Counterexample to claim C5 as stated: a grounded body with leftover
facing direction (1,0,0) and horizontal speed 10 gains speed under zero
directional input (10 to 10.475 in one tick), because the acceleration along
the remembered facing direction outweighs friction. -/
theorem C5_counterexample :
    horizSpeed (⟨⟨0, 0, 0⟩, ⟨10, 0, 0⟩, ⟨1, 0, 0⟩, true⟩ : Body) = 10 ∧
    horizSpeed (UpdateBody ⟨⟨0, 0, 0⟩, ⟨10, 0, 0⟩, ⟨1, 0, 0⟩, true⟩ 0 0 0 false false
        (1 / 60)) = 10.475 ∧
    (10 : ℝ) < 10.475 := by
  have hvj : velAfterJump (⟨⟨0, 0, 0⟩, ⟨10, 0, 0⟩, ⟨1, 0, 0⟩, true⟩ : Body) false (1 / 60)
      = ⟨10, 0, 0⟩ := by
    simp [velAfterJump, velAfterGravity]
  have hga : groundedAfterJump (⟨⟨0, 0, 0⟩, ⟨10, 0, 0⟩, ⟨1, 0, 0⟩, true⟩ : Body) false
      = true := by
    simp [groundedAfterJump]
  have ht : clampR (CONTROL * (1 / 60)) 0 1 = 1 / 4 := by
    rw [clampR, CONTROL]; norm_num
  have hdir : smoothedDir (⟨⟨0, 0, 0⟩, ⟨10, 0, 0⟩, ⟨1, 0, 0⟩, true⟩ : Body) 0 0 0 (1 / 60)
      = ⟨3 / 4, 0, 0⟩ := by
    rw [smoothedDir, ht]
    ext <;> (simp [desiredDir, frontVec, rightVec, mix3, mixR]; try norm_num)
  have hfr : hvelFriction (⟨⟨0, 0, 0⟩, ⟨10, 0, 0⟩, ⟨1, 0, 0⟩, true⟩ : Body) false (1 / 60)
      = ⟨43 / 5, 0, 0⟩ := by
    rw [hvelFriction]
    rw [hga, hvj, if_pos rfl]
    ext <;> norm_num [FRICTION]
  have hsnap : hvelSnapped (⟨⟨0, 0, 0⟩, ⟨10, 0, 0⟩, ⟨1, 0, 0⟩, true⟩ : Body) false (1 / 60)
      = ⟨43 / 5, 0, 0⟩ := by
    rw [hvelSnapped, hfr, if_neg (by
      rw [length3_x, MAX_SPEED, abs_of_nonneg (by norm_num : (0 : ℝ) ≤ 43 / 5)]
      norm_num)]
  have haccel : accelOf (⟨⟨0, 0, 0⟩, ⟨10, 0, 0⟩, ⟨1, 0, 0⟩, true⟩ : Body) 0 0 0 false false
      (1 / 60) = 5 / 2 := by
    rw [accelOf, hsnap, hdir]
    simp [dot3, clampR, MAX_SPEED, MAX_ACCEL]
    norm_num
  refine ⟨?_, ?_, by norm_num⟩
  · show length3 ⟨10, 0, 0⟩ = 10
    rw [length3_x]; norm_num
  · rw [horizSpeed]
    simp only [UpdateBody, hdir, hsnap, haccel, hvj]
    rw [if_pos (by norm_num)]
    norm_num [length3_x]

/-- Counterexample to claim C7 as stated: the headTimer advance per tick is
not proportional to the movement speed of the body.  Two grounded moving
ticks with post-update speeds 5/8 and 111/10 both advance headTimer by the
same (1/60)*3, which no single proportionality constant can satisfy. -/
theorem C7_counterexample :
    ¬ ∃ c : ℝ, ∀ (b : Body) (rot : ℝ) (s f : ℤ) (jp cr : Bool) (δ ht : ℝ),
        (UpdateBody b rot s f jp cr δ).isGrounded = true → (f ≠ 0 ∨ s ≠ 0) →
        mainTickHeadTimer b rot s f jp cr δ ht - ht
          = c * horizSpeed (UpdateBody b rot s f jp cr δ) * δ := by
  rintro ⟨c, hc⟩
  have hA0 : (⟨⟨0, 0, 0⟩, ⟨0, 0, 0⟩, ⟨0, 0, 0⟩, true⟩ : Body) = mkState 0 0 0 0 := by
    ext <;> simp [mkState]
  have hA : UpdateBody (⟨⟨0, 0, 0⟩, ⟨0, 0, 0⟩, ⟨0, 0, 0⟩, true⟩ : Body) 0 0 1 false false
      (1 / 60) = mkState 0 (0 + stepV 0 (mixD 0) * (1 / 60)) (stepV 0 (mixD 0)) (mixD 0) := by
    rw [hA0]; exact UpdateBody_mkState 0 0 0 0 le_rfl
  have hB0 : (⟨⟨0, 0, 0⟩, ⟨0, 0, -10⟩, ⟨0, 0, -1⟩, true⟩ : Body) = mkState 0 0 10 1 := by
    ext <;> simp [mkState]
  have hB : UpdateBody (⟨⟨0, 0, 0⟩, ⟨0, 0, -10⟩, ⟨0, 0, -1⟩, true⟩ : Body) 0 0 1 false false
      (1 / 60)
      = mkState 0 (0 + stepV 10 (mixD 1) * (1 / 60)) (stepV 10 (mixD 1)) (mixD 1) := by
    rw [hB0]; exact UpdateBody_mkState 0 0 10 1 (by norm_num)
  have hVA : stepV 0 (mixD 0) = 5 / 8 := by norm_num [stepV, snapQ, mixD]
  have hVB : stepV 10 (mixD 1) = 111 / 10 := by norm_num [stepV, snapQ, mixD]
  have hsA : horizSpeed (UpdateBody (⟨⟨0, 0, 0⟩, ⟨0, 0, 0⟩, ⟨0, 0, 0⟩, true⟩ : Body)
      0 0 1 false false (1 / 60)) = ((5 / 8 : ℚ) : ℝ) := by
    rw [hA, horizSpeed_mkState _ _ _ _ (by rw [hVA]; norm_num), hVA]
  have hsB : horizSpeed (UpdateBody (⟨⟨0, 0, 0⟩, ⟨0, 0, -10⟩, ⟨0, 0, -1⟩, true⟩ : Body)
      0 0 1 false false (1 / 60)) = ((111 / 10 : ℚ) : ℝ) := by
    rw [hB, horizSpeed_mkState _ _ _ _ (by rw [hVB]; norm_num), hVB]
  have hgA : (UpdateBody (⟨⟨0, 0, 0⟩, ⟨0, 0, 0⟩, ⟨0, 0, 0⟩, true⟩ : Body)
      0 0 1 false false (1 / 60)).isGrounded = true := by
    rw [hA]; rfl
  have hgB : (UpdateBody (⟨⟨0, 0, 0⟩, ⟨0, 0, -10⟩, ⟨0, 0, -1⟩, true⟩ : Body)
      0 0 1 false false (1 / 60)).isGrounded = true := by
    rw [hB]; rfl
  have e1 := hc ⟨⟨0, 0, 0⟩, ⟨0, 0, 0⟩, ⟨0, 0, 0⟩, true⟩ 0 0 1 false false (1 / 60) 0 hgA
    (Or.inl one_ne_zero)
  have e2 := hc ⟨⟨0, 0, 0⟩, ⟨0, 0, -10⟩, ⟨0, 0, -1⟩, true⟩ 0 0 1 false false (1 / 60) 0 hgB
    (Or.inl one_ne_zero)
  rw [mainTickHeadTimer, hgA, hsA] at e1
  rw [mainTickHeadTimer, hgB, hsB] at e2
  simp [headTimerStep] at e1 e2
  nlinarith [e1, e2]

end Gungale
